import Mathlib

/-!
Verification development for the MapRAG map front end (`main.js`).

The JavaScript source is shallowly embedded: JS numbers are modelled as an
inductive with NaN, the two infinities and a finite rational part; JS field
values as an inductive covering `undefined`, `null`, strings, numbers and
booleans; records as association lists; the Leaflet map, the marker array and
the page-level flags as an explicit state record; asynchronous network calls
as injected `Except` outcomes and an emitted effect trace.  Trigonometric
distance computation (`calculateDistance` composed with `toFixed(1)`) is the
single abstracted ingredient: it is passed as an explicit function parameter,
since none of the verified properties depend on its value.
-/

namespace MapRag

/-- Model of a JavaScript number: NaN, the infinities, or a finite value
represented as a rational. -/
inductive JNum where
  | nan : JNum
  | posInf : JNum
  | negInf : JNum
  | fin : ℚ → JNum
deriving DecidableEq

/-- The `isNaN` test on a JS number. -/
def JNum.isNaN : JNum → Bool
  | .nan => true
  | _ => false

/-- Model of a JavaScript record-field value. -/
inductive JSVal where
  | undef : JSVal
  | null : JSVal
  | str : String → JSVal
  | num : JNum → JSVal
  | boolean : Bool → JSVal
deriving DecidableEq

/-- JS truthiness of a value (`undefined`, `null`, `""`, `0`, `NaN`, `false`
are falsy, everything else truthy). -/
def truthy : JSVal → Bool
  | JSVal.undef => false
  | .null => false
  | .str s => s ≠ ""
  | .num .nan => false
  | .num (.fin q) => q ≠ 0
  | .num _ => true
  | .boolean b => b

/-- The JS `||` operator: first operand if truthy, else second. -/
def jsOr (a b : JSVal) : JSVal := if truthy a then a else b

/-- The JS `??` (nullish coalescing) operator: first operand unless it is
`undefined` or `null`. -/
def jsNullish (a b : JSVal) : JSVal :=
  match a with
  | JSVal.undef => b
  | .null => b
  | _ => a

/-- String rendering of a value interpolated into a template literal.
Finite numbers are rendered from their rational representation, an
abstraction of JS number-to-string formatting (no verified property depends
on the rendering of a number). -/
def jsToStr : JSVal → String
  | JSVal.undef => "undefined"
  | .null => "null"
  | .str s => s
  | .num .nan => "NaN"
  | .num .posInf => "Infinity"
  | .num .negInf => "-Infinity"
  | .num (.fin q) => toString q.num ++ (if q.den = 1 then "" else "/" ++ toString q.den)
  | .boolean b => if b then "true" else "false"

/-- Numeric value of a list of decimal digit characters. -/
def digitsVal (cs : List Char) : ℕ :=
  cs.foldl (fun a c => a * 10 + (c.toNat - '0'.toNat)) 0

/-- Parse the unsigned mantissa prefix of a character list: decimal digits
with an optional fractional part, at least one digit overall (as in JS
`parseFloat`, trailing garbage is ignored). -/
def parseMantissa (cs : List Char) : Option ℚ :=
  let d1 := cs.takeWhile Char.isDigit
  let r1 := cs.dropWhile Char.isDigit
  match r1 with
  | '.' :: rest =>
      let d2 := rest.takeWhile Char.isDigit
      if d1.isEmpty ∧ d2.isEmpty then none
      else some ((digitsVal d1 : ℚ) + (digitsVal d2 : ℚ) / (10 ^ d2.length))
  | _ => if d1.isEmpty then none else some (digitsVal d1)

/-- Parse the body of a float literal after the optional sign: the keyword
`Infinity` or a mantissa; anything else yields NaN. -/
def parseBody (cs : List Char) (neg : Bool) : JNum :=
  if cs.take 8 = "Infinity".toList then
    if neg then .negInf else .posInf
  else
    match parseMantissa cs with
    | none => .nan
    | some q => .fin (if neg then -q else q)

/-- Model of JS `parseFloat` on a string: skip leading whitespace, read an
optional sign, then the longest valid float prefix (exponent suffixes are not
modelled; no record in the verified properties uses one). -/
def parseFloatStr (s : String) : JNum :=
  match s.toList.dropWhile Char.isWhitespace with
  | '+' :: rest => parseBody rest false
  | '-' :: rest => parseBody rest true
  | rest => parseBody rest false

/-- Model of JS `parseFloat` applied to a record-field value: strings are
parsed, numbers pass through, `undefined`/`null`/booleans stringify to
non-numeric text and give NaN. -/
def parseFloatV : JSVal → JNum
  | .str s => parseFloatStr s
  | .num n => n
  | _ => .nan

/-- Multiplication of a JS number by a nonzero rational constant (used for
the mile/kilometre conversions). -/
def jmul (n : JNum) (c : ℚ) : JNum :=
  match n with
  | .nan => .nan
  | .posInf => if 0 < c then .posInf else if c < 0 then .negInf else .nan
  | .negInf => if 0 < c then .negInf else if c < 0 then .posInf else .nan
  | .fin q => .fin (q * c)

/-- Model of `String.prototype.trim`: drop whitespace at both ends
(defined over the character list so that it evaluates by kernel reduction). -/
def trimStr (s : String) : String :=
  String.mk (((s.toList.dropWhile Char.isWhitespace).reverse.dropWhile
    Char.isWhitespace).reverse)

/-- A raw record body: an association list from field names to values, with
lookup returning `undefined` for an absent key (as JS property access does). -/
def Rec := List (String × JSVal)

/-- Property access on a record: first binding of the key, else `undefined`. -/
def getF (r : Rec) (k : String) : JSVal :=
  match r.find? (fun p => p.1 == k) with
  | some p => p.2
  | none => JSVal.undef

/-- A raw API element, optionally wrapped one level under a `json` key
(`raw.json || raw` in the source). -/
structure Raw where
  json : Option Rec
  fields : Rec

/-- The unwrap step `const rec = raw.json || raw` of `plotMarkers` and
`updateSidebar`: an object-valued `json` property is always truthy. -/
def unwrapRaw (raw : Raw) : Rec := raw.json.getD raw.fields

/-! Popup content of a location marker (`plotMarkers`, main.js lines
334-349).  Each interpolated chunk is one template-literal interpolation;
note that the email chunk has no trailing `|| ""` fallback in the source. -/

/-- The popup name chunk: `rec.name || rec.Name || "Unnamed"`. -/
def popupName (r : Rec) : String :=
  jsToStr (jsOr (jsOr (getF r "name") (getF r "Name")) (.str "Unnamed"))

/-- The popup business chunk: `rec.business_name || rec["Business Name"] || ""`. -/
def popupBusiness (r : Rec) : String :=
  jsToStr (jsOr (jsOr (getF r "business_name") (getF r "Business Name")) (.str ""))

/-- The popup type chunk: `rec.type || rec.Type || ""`. -/
def popupType (r : Rec) : String :=
  jsToStr (jsOr (jsOr (getF r "type") (getF r "Type")) (.str ""))

/-- The popup address chunk: `rec.address || rec.Address || ""`. -/
def popupAddress (r : Rec) : String :=
  jsToStr (jsOr (jsOr (getF r "address") (getF r "Address")) (.str ""))

/-- The popup email chunk: `rec.email || rec.Email` — with no final string
fallback, unlike every other optional field. -/
def popupEmail (r : Rec) : String :=
  jsToStr (jsOr (getF r "email") (getF r "Email"))

/-- The popup contact chunk: `rec.contact || rec.Contact || ""`. -/
def popupContact (r : Rec) : String :=
  jsToStr (jsOr (jsOr (getF r "contact") (getF r "Contact")) (.str ""))

/-- The popup rates chunk: `rec.rates || rec.Rates || ""`. -/
def popupRates (r : Rec) : String :=
  jsToStr (jsOr (jsOr (getF r "rates") (getF r "Rates")) (.str ""))

/-- The assembled popup HTML of `marker.bindPopup` in `plotMarkers`
(markup tags kept, layout whitespace normalised). -/
def popupContent (r : Rec) : String :=
  "<b>" ++ popupName r ++ "</b><br><i>" ++ popupBusiness r ++ "</i><br><span>"
    ++ popupType r ++ "</span><br>" ++ popupAddress r
    ++ "<br><a href=mailto:" ++ popupEmail r ++ "? class=email-link>"
    ++ popupEmail r ++ "</a><br>" ++ popupContact r ++ "<br>" ++ popupRates r

/-- Does the first list of characters begin the second? -/
def beginsWith : List Char → List Char → Bool
  | [], _ => true
  | _ :: _, [] => false
  | a :: as, b :: bs => a == b && beginsWith as bs

/-- Does the first list of characters occur inside the second? -/
def containsSub (n : List Char) : List Char → Bool
  | [] => n.isEmpty
  | c :: cs => beginsWith n (c :: cs) || containsSub n cs

/-- Does a rendered string contain the literal word `undefined`? -/
def hasUndefinedWord (s : String) : Bool :=
  containsSub "undefined".toList s.toList

/-! The sidebar result-processing pipeline (`updateSidebar`, main.js lines
639-682). -/

/-- The abstracted distance computation: the composite
`Number(calculateDistance(slat, slon, locLat, locLon).toFixed(1))`.
`calculateDistance` is the haversine formula over `sin`/`cos`/`atan2`/`sqrt`;
it is real-valued, so it enters the embedding as an explicit function
parameter.  Its result is a JS number and may be NaN: a record whose
coordinate parses to Infinity passes the `Number.isNaN` gate, and the
haversine of an infinite coordinate is NaN. -/
def DistFn := JNum → JNum → JNum → JNum → JNum

/-- A processed sidebar result: the object literal of main.js lines 654-668. -/
structure ProcessedResult where
  index : Nat
  serial : JSVal
  name : JSVal
  businessName : JSVal
  address : JSVal
  typ : JSVal
  stateV : JSVal
  contact : JSVal
  email : JSVal
  website : JSVal
  distance : Option JNum
  rating : JSVal
  feedback : JSVal
deriving DecidableEq

/-- A processed result with its mutable display rank blanked, exposing just
the underlying record data (used to state order-preservation properties). -/
def datum (r : ProcessedResult) : ProcessedResult := { r with index := 0 }

/-- Processing of one raw result at a given 0-based position
(the `results.map((raw, index) => ...)` body, main.js lines 639-669). -/
def processOne (d : DistFn) (ref : Option (JNum × JNum)) (idx : Nat)
    (raw : Raw) : ProcessedResult :=
  let rcd := unwrapRaw raw
  let locLat := parseFloatV (jsNullish (jsNullish (jsNullish
    (getF rcd "latitude") (getF rcd "lat")) (getF rcd "Latitude")) (getF rcd "Lat"))
  let locLon := parseFloatV (jsNullish (jsNullish (jsNullish
    (getF rcd "longitude") (getF rcd "lon")) (getF rcd "Longitude")) (getF rcd "Lon"))
  let dist : Option JNum :=
    match ref with
    | some rp => if locLat.isNaN || locLon.isNaN then none
                 else some (d rp.1 rp.2 locLat locLon)
    | none => none
  { index := idx + 1
    serial := jsOr (jsOr (jsOr (jsOr (jsOr (getF rcd "serial") (getF rcd "Serial"))
      (getF rcd "Serial No.")) (getF rcd "Serial No")) (getF rcd "serial_no"))
      (.num (.fin (idx + 1)))
    name := jsOr (jsOr (getF rcd "name") (getF rcd "Name")) (.str "Unnamed")
    businessName := jsOr (jsOr (getF rcd "business_name") (getF rcd "Business Name")) (.str "")
    address := jsOr (jsOr (getF rcd "address") (getF rcd "Address")) (.str "")
    typ := jsOr (jsOr (getF rcd "type") (getF rcd "Type")) (.str "")
    stateV := jsOr (jsOr (getF rcd "state") (getF rcd "State")) (.str "")
    contact := jsOr (jsOr (getF rcd "contact") (getF rcd "Contact")) (.str "")
    email := jsOr (jsOr (getF rcd "email") (getF rcd "Email")) (.str "")
    website := jsOr (jsOr (getF rcd "website") (getF rcd "Website")) (.str "")
    distance := dist
    rating := jsOr (jsOr (getF rcd "rating") (getF rcd "Rating")) .null
    feedback := jsOr (jsOr (getF rcd "feedback") (getF rcd "Feedback")) .null }

/-- The indexed map over the raw batch, starting at position `n`. -/
def processFrom (d : DistFn) (ref : Option (JNum × JNum)) :
    Nat → List Raw → List ProcessedResult
  | _, [] => []
  | n, raw :: rest => processOne d ref n raw :: processFrom d ref (n + 1) rest

/-- JS subtraction on numbers, as used by the sort comparator: NaN is
absorbing, and the difference of equal-signed infinities is NaN. -/
def jsub : JNum → JNum → JNum
  | .nan, _ => .nan
  | _, .nan => .nan
  | .posInf, .posInf => .nan
  | .posInf, _ => .posInf
  | .negInf, .negInf => .nan
  | .negInf, _ => .negInf
  | .fin _, .posInf => .negInf
  | .fin _, .negInf => .posInf
  | .fin x, .fin y => .fin (x - y)

/-- The comparator key of a processed distance:
`a.distance !== null ? a.distance : Infinity` (main.js lines 674-675). -/
def distKey : Option JNum → JNum
  | none => .posInf
  | some v => v

/-- The sort order induced by the comparator `(a, b) => distA - distB`
(main.js lines 673-677): `cmpLE a b` holds when the engine may place `a` no
later than `b`, that is when the comparator result is non-positive — where
a NaN comparator result (two nulls, two equal infinities, or any NaN
distance) is treated as 0, a tie, as the sort specification prescribes. -/
def cmpLE (a b : Option JNum) : Bool :=
  match jsub (distKey a) (distKey b) with
  | .nan => true
  | .posInf => false
  | .negInf => true
  | .fin q => decide (q ≤ 0)

/-- Is a processed distance either null or a finite number?  Exactly these
keys make the comparator consistent. -/
def isFinOrNone : Option JNum → Bool
  | none => true
  | some (.fin _) => true
  | some _ => false

/-- The comparator as a relation on processed results. -/
def distRel (a b : ProcessedResult) : Prop :=
  cmpLE a.distance b.distance = true

instance : DecidableRel distRel := fun a b => by
  unfold distRel; infer_instance

/-- The JS engine's stable sort under the distance comparator, modelled as
insertion sort (the canonical stable sort for a total preorder). -/
def jsSortByDistance (rs : List ProcessedResult) : List ProcessedResult :=
  rs.insertionSort distRel

/-- The re-numbering pass after sorting
(`processedResults.forEach((result, index) => result.index = index + 1)`),
from a given 0-based position. -/
def reindexFrom (n : Nat) : List ProcessedResult → List ProcessedResult
  | [] => []
  | r :: rs => { r with index := n + 1 } :: reindexFrom (n + 1) rs

/-- The conditional sort-and-renumber step of `updateSidebar`
(main.js lines 671-682): only taken when the list is non-empty and some
element has a non-null distance. -/
def sortStep (rs : List ProcessedResult) : List ProcessedResult :=
  if 0 < rs.length ∧ rs.any (fun r => r.distance.isSome) = true then
    reindexFrom 0 (jsSortByDistance rs)
  else rs

/-- The full sidebar result-processing pipeline: indexed map, then the
conditional sort-and-renumber step. -/
def processResults (d : DistFn) (ref : Option (JNum × JNum))
    (data : List Raw) : List ProcessedResult :=
  sortStep (processFrom d ref 0 data)

/-! The Leaflet map and page-level state. -/

/-- A map overlay layer: a location marker with its popup, the search-radius
circle, or the search-point highlight (`L.circleMarker`). -/
inductive Layer where
  | mark : JNum → JNum → String → Layer
  | circ : JNum → JNum → JNum → Layer
  | circMark : JNum → JNum → Layer
deriving DecidableEq

/-- Is a layer a location marker? -/
def Layer.isMark : Layer → Bool
  | .mark _ _ _ => true
  | _ => false

/-- Is a layer the search-radius circle? -/
def Layer.isCirc : Layer → Bool
  | .circ _ _ _ => true
  | _ => false

/-- Is a layer the search-point highlight? -/
def Layer.isCircMark : Layer → Bool
  | .circMark _ _ => true
  | _ => false

/-- The Leaflet map object: its layers, keyed by an identifier, and a fresh
identifier counter. -/
structure MapState where
  layers : List (Nat × Layer)
  nextId : Nat
deriving DecidableEq

/-- Add a layer to the map (`addTo(map)`), returning its identifier. -/
def MapState.addLayer (m : MapState) (ly : Layer) : MapState × Nat :=
  ({ layers := m.layers ++ [(m.nextId, ly)], nextId := m.nextId + 1 }, m.nextId)

/-- Remove a layer from the map by identifier (`map.removeLayer`). -/
def MapState.removeLayer (m : MapState) (i : Nat) : MapState :=
  { m with layers := m.layers.filter (fun p => p.1 ≠ i) }

/-- The module-level mutable state of main.js: the map, the `markers` array
(identifiers of placed location markers), the circle and highlight handles,
the loading flag, the control-disable flags and the last search location. -/
structure AppState where
  mapSt : MapState
  markers : List Nat
  searchCircle : Option Nat
  searchLocationMarker : Option Nat
  isLoading : Bool
  searchBtnDisabled : Bool
  updateMapBtnDisabled : Bool
  lastSearchLocation : Option (JNum × JNum)
  sidebarCards : List ProcessedResult
deriving DecidableEq

/-- Layers of the map that are location markers, in placement order. -/
def markerLayers (s : AppState) : List (Nat × Layer) :=
  s.mapSt.layers.filter (fun p => p.2.isMark)

/-- The location-marker layers themselves (identifiers dropped). -/
def markerSnds (s : AppState) : List Layer := (markerLayers s).map (·.2)

/-- The marker bookkeeping is consistent: the identifiers of the marker
layers on the map are exactly the contents of the `markers` array, in
order.  This holds of the initial state and is maintained by the marker
pipeline. -/
def markAligned (s : AppState) : Prop :=
  (markerLayers s).map Prod.fst = s.markers

/-- Layers of the map that are search-radius circles. -/
def circleLayers (s : AppState) : List (Nat × Layer) :=
  s.mapSt.layers.filter (fun p => p.2.isCirc)

/-- The circle layers themselves (identifiers dropped). -/
def circleSnds (s : AppState) : List Layer := (circleLayers s).map (·.2)

/-- The circle bookkeeping is consistent: the identifiers of the circle
layers on the map are exactly the contents of the `searchCircle` handle, so
an aligned state shows at most one circle.  This holds of the initial state
and is maintained by `drawSearchCircle`. -/
def circleAligned (s : AppState) : Prop :=
  (circleLayers s).map Prod.fst = s.searchCircle.toList

/-- Layers of the map that are search-point highlights. -/
def highlightLayers (s : AppState) : List (Nat × Layer) :=
  s.mapSt.layers.filter (fun p => p.2.isCircMark)

/-- One `plotMarkers` loop iteration: unwrap, parse both coordinates, skip
the record when either is NaN, else place a marker and push its identifier
onto the `markers` array (main.js lines 319-353). -/
def plotStep (s : AppState) (raw : Raw) : AppState :=
  let rcd := unwrapRaw raw
  let la := parseFloatV (getF rcd "latitude")
  let lo := parseFloatV (getF rcd "longitude")
  if la.isNaN || lo.isNaN then s
  else
    let (m, i) := s.mapSt.addLayer (.mark la lo (popupContent rcd))
    { s with mapSt := m, markers := s.markers ++ [i] }

/-- `plotMarkers(data)`: early return on a missing or empty batch, otherwise
one marker per coordinate-parseable record (the final `fitBounds` only moves
the viewport and is not part of the modelled state). -/
def plotMarkers (data : List Raw) (s : AppState) : AppState :=
  if data.isEmpty then s else data.foldl plotStep s

/-- The marker-placement decision of one `plotMarkers` iteration: `none`
when either parsed coordinate is NaN, else the marker layer placed. -/
def acceptOne (raw : Raw) : Option Layer :=
  let rcd := unwrapRaw raw
  let la := parseFloatV (getF rcd "latitude")
  let lo := parseFloatV (getF rcd "longitude")
  if la.isNaN || lo.isNaN then none
  else some (.mark la lo (popupContent rcd))

/-- The marker layers `plotMarkers` produces from a batch, in batch order:
one per record whose `latitude` and `longitude` both parse to non-NaN. -/
def acceptedMarkers (data : List Raw) : List Layer :=
  data.filterMap acceptOne

/-- Does `plotMarkers` accept this record (both coordinates parse)? -/
def mapAccepts (raw : Raw) : Bool :=
  let rcd := unwrapRaw raw
  !(parseFloatV (getF rcd "latitude")).isNaN
    && !(parseFloatV (getF rcd "longitude")).isNaN

/-- `clearMarkers()`: remove every layer whose identifier is in the `markers`
array, then empty the array (main.js lines 399-404). -/
def clearMarkers (s : AppState) : AppState :=
  { s with
    mapSt := { s.mapSt with
      layers := s.mapSt.layers.filter (fun p => !(s.markers.contains p.1)) }
    markers := [] }

/-- `drawSearchCircle(lat, lon, radiusMiles)`: remove the previous circle if
one exists, then add a circle of `radiusMiles * 1609.34` metres
(main.js lines 412-425). -/
def drawSearchCircle (la lo : JNum) (radiusMiles : JNum) (s : AppState) : AppState :=
  let s1 :=
    match s.searchCircle with
    | some i => { s with mapSt := s.mapSt.removeLayer i }
    | none => s
  let (m, i) := s1.mapSt.addLayer (.circ la lo (jmul radiusMiles 1609.34))
  { s1 with mapSt := m, searchCircle := some i }

/-- `highlightSearchLocation(lat, lon, label)`: remove the previous highlight
if one exists, then add a distinct circle marker (main.js lines 433-454). -/
def highlightSearchLocation (la lo : JNum) (s : AppState) : AppState :=
  let s1 :=
    match s.searchLocationMarker with
    | some i => { s with mapSt := s.mapSt.removeLayer i }
    | none => s
  let (m, i) := s1.mapSt.addLayer (.circMark la lo)
  { s1 with mapSt := m, searchLocationMarker := some i }

/-- `showLoading(show)`: set the loading flag and disable or enable the
search and update-map buttons together (main.js lines 460-480). -/
def showLoadingM (b : Bool) (s : AppState) : AppState :=
  { s with isLoading := b, searchBtnDisabled := b, updateMapBtnDisabled := b }

/-- `updateSidebar(results, radius)`: the sidebar is rebuilt with one card
per processed result (the DOM cards are modelled by the processed-result
list that generates them; there is no record-level filtering). -/
def updateSidebarM (d : DistFn) (data : List Raw) (s : AppState) : AppState :=
  { s with sidebarCards := processResults d s.lastSearchLocation data }

/-! The request orchestration (`handleSearch`, `loadAllPins`,
`geocodeAddress`) with network outcomes injected as `Except` values and the
observable network/notice actions collected in an effect trace. -/

/-- An observable effect: a network request or a user-visible notice. -/
inductive Eff where
  | netGeocode : String → Eff
  | netQuery : JNum → JNum → JNum → Eff
  | netData : Eff
  | netUpdate : Eff
  | netReview : String → Nat → String → Eff
  | uiError : String → Eff
  | uiSuccess : String → Eff
  | uiAlert : String → Eff
deriving DecidableEq

/-- Is an effect a network request (as opposed to a notice)? -/
def Eff.isNet : Eff → Bool
  | .netGeocode _ => true
  | .netQuery _ _ _ => true
  | .netData => true
  | .netUpdate => true
  | .netReview _ _ _ => true
  | _ => false

/-- Is an effect the location-query request? -/
def Eff.isQuery : Eff → Bool
  | .netQuery _ _ _ => true
  | _ => false

/-- One element of the geocoding response array, as the source reads it. -/
structure GeoRec where
  lat : JSVal
  lon : JSVal
  display_name : JSVal

/-- The value `geocodeAddress` resolves to when the response is non-empty. -/
structure GeoResult where
  lat : JNum
  lon : JNum
  display_name : JSVal
deriving DecidableEq

/-- `geocodeAddress(address)` (main.js lines 283-305): a transport error is
caught and mapped to `null`; an empty response array maps to `null`; else
the first element's coordinates are parsed with `parseFloat`.  The function
itself never rejects. -/
def geocodeAddress (outcome : Except Unit (List GeoRec)) : Option GeoResult :=
  match outcome with
  | .error _ => none
  | .ok [] => none
  | .ok (g :: _) =>
      some { lat := parseFloatV g.lat, lon := parseFloatV g.lon,
             display_name := g.display_name }

/-- The truthiness test `!radius` on the parsed radius (NaN and 0 falsy). -/
def jnumTruthy : JNum → Bool
  | .nan => false
  | .fin q => q ≠ 0
  | _ => true

/-- The JS comparison `radius <= 0` (false on NaN). -/
def jnumLeZero : JNum → Bool
  | .nan => false
  | .posInf => false
  | .negInf => true
  | .fin q => decide (q ≤ 0)

/-- `handleSearch()` (main.js lines 195-276), modelled over the input field
contents and the injected geocode / query outcomes.  The control flow
mirrors the source exactly: trim and parse, validate the address, validate
the radius, drop the attempt when `isLoading`, then geocode (abort with the
address-not-found notice on `null`), store `lastSearchLocation`, query with
the radius converted to kilometres (`× 1.60934`), and on success clear and
replot markers, rebuild the sidebar, redraw the circle (miles → metres) and
the highlight; the `finally` clause always clears the loading state. -/
def handleSearch (d : DistFn) (addressRaw radiusRaw : String)
    (geo : Except Unit (List GeoRec)) (qry : Except Unit (List Raw))
    (s : AppState) : AppState × List Eff :=
  let address := trimStr addressRaw
  let radius := parseFloatStr radiusRaw
  if address = "" then
    (s, [.uiError "Please enter an address"])
  else if !jnumTruthy radius || jnumLeZero radius then
    (s, [.uiError "Please enter a valid radius (greater than 0)"])
  else if s.isLoading then
    (s, [])
  else
    let s1 := showLoadingM true s
    let radiusKm := jmul radius 1.60934
    match geocodeAddress geo with
    | none =>
        (showLoadingM false s1,
         [.netGeocode address,
          .uiError "Could not find the specified address. Please try a different address."])
    | some g =>
        let s2 := { s1 with lastSearchLocation := some (g.lat, g.lon) }
        match qry with
        | .error _ =>
            (showLoadingM false s2,
             [.netGeocode address, .netQuery g.lat g.lon radiusKm,
              .uiError "Search failed. Please try again."])
        | .ok data =>
            let s3 := plotMarkers data (clearMarkers s2)
            let s4 := updateSidebarM d data s3
            let s5 := drawSearchCircle g.lat g.lon radius s4
            let s6 := highlightSearchLocation g.lat g.lon s5
            (showLoadingM false s6,
             [.netGeocode address, .netQuery g.lat g.lon radiusKm]
               ++ (if data.isEmpty
                   then [.uiError "No locations found within that radius."]
                   else []))

/-- `loadAllPins()` (main.js lines 173-190): fetch the full data set and
plot it — with no call to `clearMarkers`; failures surface a notice; the
`finally` clause clears the loading state. -/
def loadAllPins (qry : Except Unit (List Raw)) (s : AppState) :
    AppState × List Eff :=
  let s1 := showLoadingM true s
  match qry with
  | .error _ =>
      (showLoadingM false s1,
       [.netData,
        .uiError "Failed to load locations. Please check your connection and try again."])
  | .ok data =>
      (showLoadingM false (plotMarkers data s1), [.netData])

/-! The per-card feedback submission handler (`updateSidebar`, main.js
lines 855-934). -/

/-- The observable state of one result card's feedback form. -/
structure CardState where
  selectedRating : Nat
  draftText : String
  submitDisabled : Bool
  textareaDisabled : Bool
  starsEnabled : Bool
  displayedRating : String
  displayedFeedback : String
  formVisible : Bool
deriving DecidableEq

/-- The submit-button click handler of one card, with the review-webhook
outcome injected.  A zero rating is rejected locally before any state
change or network call; otherwise the controls are disabled for the
duration, the review request is issued, and the handler either updates the
displayed rating/feedback and resets the form (success) or re-enables the
controls keeping the draft (failure). -/
def submitFeedback (serial : String) (resp : Except Unit Unit)
    (c : CardState) : CardState × List Eff :=
  if c.selectedRating = 0 then
    (c, [.uiAlert "Please select a star rating before submitting."])
  else
    let text := trimStr c.draftText
    match resp with
    | .ok _ =>
        ({ c with
            displayedRating := toString c.selectedRating ++ " stars"
            displayedFeedback := if text = "" then "No feedback yet" else text
            selectedRating := 0
            draftText := ""
            submitDisabled := false
            textareaDisabled := false
            starsEnabled := true
            formVisible := false },
         [.netReview serial c.selectedRating text, .uiAlert "Feedback submitted!"])
    | .error _ =>
        ({ c with
            submitDisabled := false
            textareaDisabled := false
            starsEnabled := true },
         [.netReview serial c.selectedRating text,
          .uiAlert "Failed to submit feedback. Please try again."])

/-! Concrete fixtures used by witnesses and counterexamples. -/

/-- A trivial distance oracle for concrete instantiations. -/
def distZero : DistFn := fun _ _ _ _ => JNum.fin 0

/-- The page state right after initialisation: empty map, no flags set. -/
def initState : AppState :=
  { mapSt := { layers := [], nextId := 0 }
    markers := []
    searchCircle := none
    searchLocationMarker := none
    isLoading := false
    searchBtnDisabled := false
    updateMapBtnDisabled := false
    lastSearchLocation := none
    sidebarCards := [] }

/-- A concrete coordinate-bearing record. -/
def rawA : Raw :=
  ⟨none, [("name", .str "Alpha"), ("latitude", .str "33.5"),
          ("longitude", .str "-86.8")]⟩

/-- A concrete record with no coordinates. -/
def rawB : Raw := ⟨none, [("Name", .str "Beta")]⟩

/-- A record whose latitude parses to the out-of-range value 200. -/
def raw200 : Raw := ⟨none, [("latitude", .str "200"), ("longitude", .str "0")]⟩

/-- A record whose latitude parses to positive Infinity. -/
def rawInf : Raw := ⟨none, [("latitude", .str "Infinity"), ("longitude", .str "0")]⟩

/-- The initial state with the loading flag raised (a search in flight). -/
def sLoading : AppState := { initState with isLoading := true }

/-- A record body with every field absent. -/
def recNone : Rec := []

/-- A bare processed result carrying just a rank and a distance. -/
def prWith (i : Nat) (dq : Option JNum) : ProcessedResult :=
  { index := i, serial := JSVal.undef, name := JSVal.undef, businessName := JSVal.undef,
    address := JSVal.undef, typ := JSVal.undef, stateV := JSVal.undef, contact := JSVal.undef,
    email := JSVal.undef, website := JSVal.undef, distance := dq, rating := JSVal.undef,
    feedback := JSVal.undef }

/-! Claim C8: zero-rating submission is rejected locally. -/

/-- Claim C8: activating a card's submit button while its selected rating is
0 is rejected locally — the handler returns before any network request, the
card's feedback state (draft text, rating, control flags, displayed rating
and feedback) is unchanged, and the only observable effect is the local
alert. -/
theorem submit_zero_rating_rejected (serial : String) (resp : Except Unit Unit)
    (c : CardState) (h : c.selectedRating = 0) :
    submitFeedback serial resp c
      = (c, [Eff.uiAlert "Please select a star rating before submitting."])
    ∧ ∀ e ∈ (submitFeedback serial resp c).2, e.isNet = false := by
  unfold submitFeedback
  rw [if_pos h]
  exact ⟨rfl, by intro e he; simp only [List.mem_singleton] at he; subst he; rfl⟩

/-- Witness for C8 at a concrete card with rating 0. -/
theorem submit_zero_rating_rejected_witness :
    ({ selectedRating := 0, draftText := "great", submitDisabled := false,
       textareaDisabled := false, starsEnabled := true, displayedRating := "",
       displayedFeedback := "", formVisible := true } : CardState).selectedRating = 0
    ∧ submitFeedback "7" (Except.ok ())
        { selectedRating := 0, draftText := "great", submitDisabled := false,
          textareaDisabled := false, starsEnabled := true, displayedRating := "",
          displayedFeedback := "", formVisible := true }
      = ({ selectedRating := 0, draftText := "great", submitDisabled := false,
           textareaDisabled := false, starsEnabled := true, displayedRating := "",
           displayedFeedback := "", formVisible := true },
         [Eff.uiAlert "Please select a star rating before submitting."]) :=
  ⟨rfl, (submit_zero_rating_rejected "7" (Except.ok ()) _ rfl).1⟩

/-! Claim C10: geocoding totality and the network-failure abort path. -/

/-- Claim C10: `geocodeAddress` is total over its asynchronous outcome —
every transport result maps to `null` or to a parsed result object, never a
rejection — and a transport error during geocoding makes `handleSearch`
take the address-not-found abort path: the trace holds exactly the geocode
attempt and the address-not-found notice (not the generic search-failure
notice), with no query request issued, and the loading state is cleared. -/
theorem geocode_error_to_notFound (d : DistFn) (addressRaw radiusRaw : String)
    (qry : Except Unit (List Raw)) (s : AppState)
    (haddr : trimStr addressRaw ≠ "")
    (htr : jnumTruthy (parseFloatStr radiusRaw) = true)
    (hle : jnumLeZero (parseFloatStr radiusRaw) = false)
    (hload : s.isLoading = false) :
    (∀ outcome, geocodeAddress outcome = none
        ∨ ∃ g, geocodeAddress outcome = some g)
    ∧ handleSearch d addressRaw radiusRaw (Except.error ()) qry s
        = (showLoadingM false (showLoadingM true s),
           [Eff.netGeocode (trimStr addressRaw),
            Eff.uiError "Could not find the specified address. Please try a different address."]) := by
  constructor
  · intro outcome
    match outcome with
    | .error _ => exact Or.inl rfl
    | .ok [] => exact Or.inl rfl
    | .ok (g :: _) => exact Or.inr ⟨_, rfl⟩
  · unfold handleSearch
    rw [if_neg haddr, htr, hle, hload]
    rfl

/-- Witness for C10 at a concrete address, radius and state. -/
theorem geocode_error_to_notFound_witness :
    trimStr "Birmingham, AL" ≠ ""
    ∧ handleSearch distZero "Birmingham, AL" "10" (Except.error ())
        (Except.ok []) initState
        = (showLoadingM false (showLoadingM true initState),
           [Eff.netGeocode (trimStr "Birmingham, AL"),
            Eff.uiError "Could not find the specified address. Please try a different address."]) :=
  ⟨by decide,
   (geocode_error_to_notFound distZero "Birmingham, AL" "10" (Except.ok [])
      initState (by decide) (by decide) (by decide) rfl).2⟩

/-! Claim C4: without a reference point the pipeline preserves input order. -/

/-- The indexed map produces one processed result per raw record. -/
theorem processFrom_length (d : DistFn) (ref : Option (JNum × JNum)) :
    ∀ (data : List Raw) (n : Nat), (processFrom d ref n data).length = data.length := by
  intro data
  induction data with
  | nil => intro n; rfl
  | cons a as ih => intro n; simpa [processFrom] using ih (n + 1)

/-- Element access in the indexed map. -/
theorem processFrom_get (d : DistFn) (ref : Option (JNum × JNum)) :
    ∀ (data : List Raw) (n i : Nat) (h : i < data.length)
      (h2 : i < (processFrom d ref n data).length),
      (processFrom d ref n data).get ⟨i, h2⟩
        = processOne d ref (n + i) (data.get ⟨i, h⟩) := by
  intro data
  induction data with
  | nil => intro n i h _; exact absurd h (Nat.not_lt_zero i)
  | cons a as ih =>
    intro n i h h2
    cases i with
    | zero =>
      show processOne d ref n a = processOne d ref (n + 0) a
      rw [Nat.add_zero]
    | succ j =>
      have hj : j < as.length := Nat.lt_of_succ_lt_succ h
      have hj2 : j < (processFrom d ref (n + 1) as).length := by
        rw [processFrom_length]; exact hj
      have hrec := ih (n + 1) j hj hj2
      show (processFrom d ref (n + 1) as).get ⟨j, hj2⟩
        = processOne d ref (n + (j + 1)) ((a :: as).get ⟨j + 1, h⟩)
      rw [hrec]
      have : n + 1 + j = n + (j + 1) := by omega
      rw [this]
      rfl

/-- With no reference point, no processed result carries a distance. -/
theorem processFrom_none_distance (d : DistFn) :
    ∀ (data : List Raw) (n : Nat) (r : ProcessedResult),
      r ∈ processFrom d none n data → r.distance = none := by
  intro data
  induction data with
  | nil => intro n r h; exact absurd h (List.not_mem_nil r)
  | cons a as ih =>
    intro n r h
    rcases List.mem_cons.mp h with h | h
    · subst h; rfl
    · exact ih (n + 1) r h

/-- Claim C4: processing a batch with no reference point (so no element has
a computable distance) performs no reordering — the pipeline output is
exactly the indexed map over the input, the i-th output is the processing
of the i-th input, and the displayed ranks are 1, 2, ..., n in input
order. -/
theorem processResults_noRef_identity (d : DistFn) (data : List Raw) :
    processResults d none data = processFrom d none 0 data
    ∧ (processResults d none data).length = data.length
    ∧ ∀ (i : Nat) (hi : i < (processResults d none data).length)
        (hd : i < data.length),
        (processResults d none data).get ⟨i, hi⟩
          = processOne d none i (data.get ⟨i, hd⟩)
        ∧ ((processResults d none data).get ⟨i, hi⟩).index = i + 1 := by
  have hany : (processFrom d none 0 data).any (fun r => r.distance.isSome) = false := by
    rw [List.any_eq_false]
    intro r hr
    rw [processFrom_none_distance d data 0 r hr]
    simp
  have hid : processResults d none data = processFrom d none 0 data := by
    unfold processResults sortStep
    rw [if_neg]
    intro hc
    rw [hany] at hc
    exact Bool.false_ne_true hc.2
  refine ⟨hid, ?_, ?_⟩
  · rw [hid, processFrom_length]
  · intro i hi hd
    have hi2 : i < (processFrom d none 0 data).length := by rw [← hid]; exact hi
    have hcast : ∀ (l1 l2 : List ProcessedResult), l1 = l2 →
        ∀ (j : Nat) (hj : j < l1.length) (hj2 : j < l2.length),
          l1.get ⟨j, hj⟩ = l2.get ⟨j, hj2⟩ := by
      intro l1 l2 h j hj hj2
      subst h
      rfl
    have hpg := processFrom_get d none data 0 i hd hi2
    rw [Nat.zero_add] at hpg
    rw [hcast _ _ hid i hi hi2, hpg]
    exact ⟨rfl, rfl⟩

/-- Witness for C4 on a concrete two-record batch. -/
theorem processResults_noRef_identity_witness :
    processResults distZero none [rawA, rawB] = processFrom distZero none 0 [rawA, rawB]
    ∧ (processResults distZero none [rawA, rawB]).get ⟨1, by decide⟩
        = processOne distZero none 1 rawB
    ∧ ((processResults distZero none [rawA, rawB]).get ⟨1, by decide⟩).index = 2 :=
  ⟨(processResults_noRef_identity distZero [rawA, rawB]).1,
   ((processResults_noRef_identity distZero [rawA, rawB]).2.2 1 (by decide) (by decide)).1,
   ((processResults_noRef_identity distZero [rawA, rawB]).2.2 1 (by decide) (by decide)).2⟩

/-! Claim C3: the sort step orders by distance with nulls last, stably, and
re-ranks 1-based — but only when no computed distance is NaN. -/

/-- Every comparator key ties with itself (equal finite differences are 0;
nulls, equal infinities and NaN all yield a NaN comparator result, a tie). -/
theorem cmpLE_refl (a : Option JNum) : cmpLE a a = true := by
  rcases a with _ | v
  · rfl
  · cases v <;> simp [cmpLE, distKey, jsub]

/-- The comparator order is total: of two elements, one may come first. -/
theorem cmpLE_total (a b : Option JNum) : cmpLE a b = true ∨ cmpLE b a = true := by
  rcases a with _ | va <;> rcases b with _ | vb
  · exact Or.inl rfl
  · cases vb <;> simp [cmpLE, distKey, jsub]
  · cases va <;> simp [cmpLE, distKey, jsub]
  · cases va <;> cases vb <;> simp [cmpLE, distKey, jsub, sub_nonpos] <;>
      exact le_total _ _

/-- Null-or-finite distances decompose into the two shapes. -/
theorem isFinOrNone_cases {dq : Option JNum} (h : isFinOrNone dq = true) :
    dq = none ∨ ∃ q : ℚ, dq = some (JNum.fin q) := by
  rcases dq with _ | v
  · exact Or.inl rfl
  · cases v with
    | fin q => exact Or.inr ⟨q, rfl⟩
    | nan => exact absurd h (by simp [isFinOrNone])
    | posInf => exact absurd h (by simp [isFinOrNone])
    | negInf => exact absurd h (by simp [isFinOrNone])

/-- On null-or-finite keys the comparator order is transitive (it is not in
general: a NaN distance ties with everything). -/
theorem cmpLE_trans_fon {a b c : Option JNum} (ha : isFinOrNone a = true)
    (hb : isFinOrNone b = true) (hc : isFinOrNone c = true)
    (hab : cmpLE a b = true) (hbc : cmpLE b c = true) : cmpLE a c = true := by
  rcases isFinOrNone_cases ha with rfl | ⟨qa, rfl⟩ <;>
    rcases isFinOrNone_cases hb with rfl | ⟨qb, rfl⟩ <;>
    rcases isFinOrNone_cases hc with rfl | ⟨qc, rfl⟩ <;>
    simp_all [cmpLE, distKey, jsub, sub_nonpos] <;>
    exact le_trans hab hbc

/-- Inserting a null-or-finite element into a sorted list of null-or-finite
elements keeps it sorted. -/
theorem pairwise_orderedInsert_fon (a : ProcessedResult) :
    ∀ (l : List ProcessedResult), isFinOrNone a.distance = true →
      (∀ x ∈ l, isFinOrNone x.distance = true) → l.Pairwise distRel →
      (l.orderedInsert distRel a).Pairwise distRel := by
  intro l
  induction l with
  | nil => intro _ _ _; exact List.pairwise_singleton _ _
  | cons b t ih =>
    intro ha hl hs
    rw [List.orderedInsert]
    split_ifs with hab
    · refine List.Pairwise.cons ?_ hs
      intro x hx
      rcases List.mem_cons.mp hx with rfl | hx
      · exact hab
      · have hbx : distRel b x := (List.pairwise_cons.mp hs).1 x hx
        exact cmpLE_trans_fon ha (hl b (List.mem_cons_self b t))
          (hl x (List.mem_cons_of_mem b hx)) hab hbx
    · rw [List.pairwise_cons] at hs
      refine List.Pairwise.cons ?_
        (ih ha (fun x hx => hl x (List.mem_cons_of_mem b hx)) hs.2)
      intro x hx
      rcases (List.mem_orderedInsert distRel).mp hx with hxa | hx
      · rw [hxa]
        rcases cmpLE_total a.distance b.distance with h | h
        · exact absurd h hab
        · exact h
      · exact hs.1 x hx

/-- Insertion sort of a list of null-or-finite distances is sorted. -/
theorem pairwise_insertionSort_fon :
    ∀ (l : List ProcessedResult), (∀ x ∈ l, isFinOrNone x.distance = true) →
      (l.insertionSort distRel).Pairwise distRel := by
  intro l
  induction l with
  | nil => intro _; exact List.Pairwise.nil
  | cons a t ih =>
    intro hl
    rw [List.insertionSort]
    exact pairwise_orderedInsert_fon a _ (hl a (List.mem_cons_self a t))
      (fun x hx => hl x (List.mem_cons_of_mem a ((List.mem_insertionSort distRel).mp hx)))
      (ih (fun x hx => hl x (List.mem_cons_of_mem a hx)))

/-- Re-numbering preserves length. -/
theorem reindexFrom_length : ∀ (l : List ProcessedResult) (n : Nat),
    (reindexFrom n l).length = l.length := by
  intro l
  induction l with
  | nil => intro n; rfl
  | cons a t ih => intro n; simpa [reindexFrom] using ih (n + 1)

/-- Every re-numbered element keeps the distance of an original element. -/
theorem reindexFrom_mem : ∀ (l : List ProcessedResult) (n : Nat) (b : ProcessedResult),
    b ∈ reindexFrom n l → ∃ x ∈ l, b.distance = x.distance := by
  intro l
  induction l with
  | nil => intro n b h; exact absurd h (List.not_mem_nil b)
  | cons a t ih =>
    intro n b h
    rcases List.mem_cons.mp h with h | h
    · exact ⟨a, List.mem_cons_self a t, by rw [h]⟩
    · obtain ⟨x, hx, hd⟩ := ih (n + 1) b h
      exact ⟨x, List.mem_cons_of_mem a hx, hd⟩

/-- Re-numbering preserves the comparator ordering of the list. -/
theorem reindexFrom_pairwise : ∀ (l : List ProcessedResult),
    l.Pairwise distRel → ∀ n, (reindexFrom n l).Pairwise distRel := by
  intro l
  induction l with
  | nil => intro _ n; exact List.Pairwise.nil
  | cons a t ih =>
    intro h n
    rw [List.pairwise_cons] at h
    refine List.Pairwise.cons ?_ (ih h.2 (n + 1))
    intro b hb
    obtain ⟨x, hx, hbd⟩ := reindexFrom_mem t (n + 1) b hb
    show cmpLE ({ a with index := n + 1 } : ProcessedResult).distance b.distance = true
    rw [show ({ a with index := n + 1 } : ProcessedResult).distance = a.distance from rfl, hbd]
    exact h.1 x hx

/-- Re-numbering changes only the rank field. -/
theorem reindexFrom_map_datum : ∀ (l : List ProcessedResult) (n : Nat),
    (reindexFrom n l).map datum = l.map datum := by
  intro l
  induction l with
  | nil => intro n; rfl
  | cons a t ih =>
    intro n
    show datum { a with index := n + 1 } :: (reindexFrom (n + 1) t).map datum
      = datum a :: t.map datum
    rw [ih (n + 1)]
    rfl

/-- The rank of the i-th re-numbered element is its 1-based position. -/
theorem reindexFrom_get_index : ∀ (l : List ProcessedResult) (n i : Nat)
    (h : i < (reindexFrom n l).length),
    ((reindexFrom n l).get ⟨i, h⟩).index = n + i + 1 := by
  intro l
  induction l with
  | nil => intro n i h; rw [reindexFrom_length] at h; exact absurd h (Nat.not_lt_zero i)
  | cons a t ih =>
    intro n i h
    cases i with
    | zero => rfl
    | succ j =>
      have hj : j < (reindexFrom (n + 1) t).length := Nat.lt_of_succ_lt_succ h
      have := ih (n + 1) j hj
      show ((reindexFrom (n + 1) t).get ⟨j, hj⟩).index = n + (j + 1) + 1
      rw [this]
      omega

/-- Stability of the modelled comparator sort: for every key, the sorted
list's subsequence of elements at that distance is the input's subsequence,
in input order. -/
theorem jsSort_filter_stable (k : Option JNum) (rs : List ProcessedResult) :
    (jsSortByDistance rs).filter (fun r => decide (r.distance = k))
      = rs.filter (fun r => decide (r.distance = k)) := by
  have hpair : (rs.filter (fun r => decide (r.distance = k))).Pairwise distRel := by
    apply List.pairwise_of_forall_mem_list
    intro a ha b hb
    have ha' : a.distance = k := of_decide_eq_true (List.mem_filter.mp ha).2
    have hb' : b.distance = k := of_decide_eq_true (List.mem_filter.mp hb).2
    show cmpLE a.distance b.distance = true
    rw [ha', hb']
    exact cmpLE_refl k
  have hsub : List.Sublist (rs.filter (fun r => decide (r.distance = k)))
      (jsSortByDistance rs) :=
    List.sublist_insertionSort hpair (List.filter_sublist rs)
  have hsub2 := hsub.filter (fun r => decide (r.distance = k))
  rw [List.filter_eq_self.mpr (fun a ha => (List.mem_filter.mp ha).2)] at hsub2
  have hperm : List.Perm
      ((jsSortByDistance rs).filter (fun r => decide (r.distance = k)))
      (rs.filter (fun r => decide (r.distance = k))) :=
    (List.perm_insertionSort distRel rs).filter _
  exact (hsub2.eq_of_length hperm.length_eq.symm).symm

/-- Claim C3 (amended): when some element of a processed batch has a
non-null distance AND every non-null distance is a finite number — a NaN
distance, computed for records whose coordinates parse to Infinity, makes
the comparator inconsistent and voids the ordering guarantees, see the
counterexample — the sort step (a) fires, re-numbering the
comparator-sorted list; (b) leaves the distances non-decreasing under the
comparator order with null treated as plus-infinity; (c) places every
null-distance element after all non-null ones; (d) preserves the relative
input order within every distance class (ties and nulls alike); (e)
permutes the underlying records; and (f) assigns each element the
displayed rank equal to its 1-based sorted position. -/
theorem sortStep_sorted_stable_ranked (rs : List ProcessedResult)
    (h : rs.any (fun r => r.distance.isSome) = true)
    (hfin : rs.all (fun r => isFinOrNone r.distance) = true) :
    sortStep rs = reindexFrom 0 (jsSortByDistance rs)
    ∧ ((sortStep rs).map (fun r => r.distance)).Sorted (fun a b => cmpLE a b = true)
    ∧ (∀ (i j : Nat) (hi : i < (sortStep rs).length) (hj : j < (sortStep rs).length),
        i < j → ((sortStep rs).get ⟨i, hi⟩).distance = none →
        ((sortStep rs).get ⟨j, hj⟩).distance = none)
    ∧ (∀ k : Option JNum,
        ((sortStep rs).map datum).filter (fun r => decide (r.distance = k))
          = (rs.map datum).filter (fun r => decide (r.distance = k)))
    ∧ ((sortStep rs).map datum).Perm (rs.map datum)
    ∧ ∀ (i : Nat) (hi : i < (sortStep rs).length),
        ((sortStep rs).get ⟨i, hi⟩).index = i + 1 := by
  have hfm : ∀ r ∈ rs, isFinOrNone r.distance = true := by
    intro r hr
    exact List.all_eq_true.mp hfin r hr
  have h0 : 0 < rs.length := by
    rcases List.any_eq_true.mp h with ⟨x, hx, _⟩
    exact List.length_pos.mpr (List.ne_nil_of_mem hx)
  have heq : sortStep rs = reindexFrom 0 (jsSortByDistance rs) := by
    unfold sortStep
    rw [if_pos ⟨h0, h⟩]
  have hsorted : (sortStep rs).Pairwise distRel := by
    rw [heq]
    exact reindexFrom_pairwise _ (pairwise_insertionSort_fon rs hfm) 0
  have hmemfin : ∀ x ∈ sortStep rs, isFinOrNone x.distance = true := by
    intro x hx
    rw [heq] at hx
    obtain ⟨y, hy, hxy⟩ := reindexFrom_mem _ 0 x hx
    rw [hxy]
    exact hfm y ((List.mem_insertionSort distRel).mp hy)
  have hmapdatum : (sortStep rs).map datum = (jsSortByDistance rs).map datum := by
    rw [heq, reindexFrom_map_datum]
  have hs2 : (sortStep rs).Sorted distRel := hsorted
  refine ⟨heq, ?_, ?_, ?_, ?_, ?_⟩
  · show List.Pairwise _ _
    rw [List.pairwise_map]
    exact hsorted
  · intro i j hi hj hij hnone
    have hrel : distRel ((sortStep rs).get ⟨i, hi⟩) ((sortStep rs).get ⟨j, hj⟩) :=
      hs2.rel_get_of_lt (Fin.mk_lt_mk.mpr hij)
    unfold distRel at hrel
    rw [hnone] at hrel
    have hvj : isFinOrNone ((sortStep rs).get ⟨j, hj⟩).distance = true :=
      hmemfin _ (List.get_mem _ j hj)
    rcases isFinOrNone_cases hvj with hdj | ⟨q, hdj⟩
    · exact hdj
    · rw [hdj] at hrel
      exact absurd hrel (by simp [cmpLE, distKey, jsub])
  · intro k
    rw [hmapdatum]
    have hexch : ∀ (l : List ProcessedResult),
        (l.map datum).filter (fun r => decide (r.distance = k))
          = (l.filter (fun r => decide (r.distance = k))).map datum := by
      intro l
      induction l with
      | nil => rfl
      | cons a t iht =>
        show List.filter _ (datum a :: t.map datum) = _
        by_cases hk : a.distance = k
        · rw [List.filter_cons_of_pos (by simpa [datum] using hk),
              List.filter_cons_of_pos (by simpa using hk), List.map_cons, iht]
        · rw [List.filter_cons_of_neg (by simpa [datum] using hk),
              List.filter_cons_of_neg (by simpa using hk), iht]
    rw [hexch, hexch, jsSort_filter_stable]
  · rw [hmapdatum]
    exact (List.perm_insertionSort distRel rs).map datum
  · intro i hi
    have hi2 : i < (reindexFrom 0 (jsSortByDistance rs)).length := by
      rw [← heq]; exact hi
    have hcast : ∀ (l1 l2 : List ProcessedResult), l1 = l2 →
        ∀ (j : Nat) (hj : j < l1.length) (hj2 : j < l2.length),
          l1.get ⟨j, hj⟩ = l2.get ⟨j, hj2⟩ := by
      intro l1 l2 hl j hj hj2
      subst hl
      rfl
    rw [hcast _ _ heq i hi hi2, reindexFrom_get_index _ 0 i hi2, Nat.zero_add]

/-- Counterexample for C3 as stated: with the processed distances
[5, NaN, 3] — the NaN arising for a record whose coordinate parses to
Infinity and so passes the isNaN gate — the sort step fires, yet leaves
the batch in input order, because NaN makes the comparator return NaN,
treated as a tie with both neighbours; the output distances are not
non-decreasing (5 precedes 3). -/
theorem sortStep_nan_cex :
    ([prWith 1 (some (JNum.fin 5)), prWith 2 (some JNum.nan),
      prWith 3 (some (JNum.fin 3))].any (fun r => r.distance.isSome)) = true
    ∧ (sortStep [prWith 1 (some (JNum.fin 5)), prWith 2 (some JNum.nan),
        prWith 3 (some (JNum.fin 3))]).map (fun r => r.distance)
      = [some (JNum.fin 5), some JNum.nan, some (JNum.fin 3)]
    ∧ ¬((5 : ℚ) ≤ 3) := by
  refine ⟨by decide, by decide, by norm_num⟩

/-- Witness for C3 (amended) on a concrete batch with finite distances,
a tie and a null distance. -/
theorem sortStep_sorted_stable_ranked_witness :
    ([prWith 1 (some (JNum.fin 5)), prWith 2 none, prWith 3 (some (JNum.fin 5)),
      prWith 4 (some (JNum.fin 3))].any (fun r => r.distance.isSome)) = true
    ∧ ([prWith 1 (some (JNum.fin 5)), prWith 2 none, prWith 3 (some (JNum.fin 5)),
        prWith 4 (some (JNum.fin 3))].all (fun r => isFinOrNone r.distance)) = true
    ∧ sortStep [prWith 1 (some (JNum.fin 5)), prWith 2 none,
        prWith 3 (some (JNum.fin 5)), prWith 4 (some (JNum.fin 3))]
        = reindexFrom 0 (jsSortByDistance
            [prWith 1 (some (JNum.fin 5)), prWith 2 none,
             prWith 3 (some (JNum.fin 5)), prWith 4 (some (JNum.fin 3))]) :=
  ⟨by decide, by decide,
   (sortStep_sorted_stable_ranked
      [prWith 1 (some (JNum.fin 5)), prWith 2 none,
       prWith 3 (some (JNum.fin 5)), prWith 4 (some (JNum.fin 3))]
      (by decide) (by decide)).1⟩

/-! Claim C1: the marker pipeline's validation gate. -/

/-- One plot iteration appends exactly the accepted marker of the record. -/
theorem markerSnds_plotStep (s : AppState) (raw : Raw) :
    markerSnds (plotStep s raw) = markerSnds s ++ (acceptOne raw).toList := by
  simp only [plotStep, acceptOne]
  split_ifs with h
  · simp
  · simp [markerSnds, markerLayers, MapState.addLayer, List.filter_append,
      Layer.isMark]

/-- The batch decision list distributes over cons. -/
theorem acceptedMarkers_cons (raw : Raw) (rest : List Raw) :
    acceptedMarkers (raw :: rest)
      = (acceptOne raw).toList ++ acceptedMarkers rest := by
  unfold acceptedMarkers
  rw [List.filterMap_cons]
  cases acceptOne raw
  · rfl
  · rfl

/-- The plot fold appends exactly the accepted markers of the batch. -/
theorem markerSnds_plotFold : ∀ (data : List Raw) (s : AppState),
    markerSnds (data.foldl plotStep s) = markerSnds s ++ acceptedMarkers data := by
  intro data
  induction data with
  | nil => intro s; simp [acceptedMarkers]
  | cons raw rest ih =>
    intro s
    show markerSnds (rest.foldl plotStep (plotStep s raw)) = _
    rw [ih (plotStep s raw), markerSnds_plotStep, acceptedMarkers_cons,
      List.append_assoc]

/-- `plotMarkers` appends exactly the accepted markers of the batch. -/
theorem markerSnds_plotMarkers (data : List Raw) (s : AppState) :
    markerSnds (plotMarkers data s) = markerSnds s ++ acceptedMarkers data := by
  unfold plotMarkers
  cases data with
  | nil => simp [acceptedMarkers]
  | cons raw rest =>
    rw [if_neg (by simp)]
    exact markerSnds_plotFold (raw :: rest) s

/-- Claim C1 (amended): each record of a batch either contributes one marker
whose parsed coordinates are non-NaN, or is excluded; the number of plotted
markers is at most the batch size; no plotted marker carries a NaN
coordinate; excluding a rejected record leaves the rest of the batch's
markers unchanged; and `plotMarkers` places exactly these markers.  (The
spec's in-range/finiteness clause does not hold: the gate is only the
`isNaN` test, see the counterexample.) -/
theorem plotMarkers_filter_sound (data : List Raw) :
    (acceptedMarkers data).length ≤ data.length
    ∧ (∀ ly ∈ acceptedMarkers data, ∀ la lo pop, ly = Layer.mark la lo pop →
        la.isNaN = false ∧ lo.isNaN = false)
    ∧ (∀ (l1 l2 : List Raw) (bad : Raw), mapAccepts bad = false →
        acceptedMarkers (l1 ++ bad :: l2) = acceptedMarkers (l1 ++ l2))
    ∧ ∀ s : AppState, markerSnds (plotMarkers data s) = markerSnds s ++ acceptedMarkers data := by
  refine ⟨List.length_filterMap_le _ _, ?_, ?_, fun s => markerSnds_plotMarkers data s⟩
  · intro ly hly la lo pop hmark
    obtain ⟨raw, _, hf⟩ := List.mem_filterMap.mp hly
    revert hf
    simp only [acceptOne]
    split_ifs with hc
    · intro hf; exact absurd hf (by simp)
    · intro hf
      have hc' : ((parseFloatV (getF (unwrapRaw raw) "latitude")).isNaN
          || (parseFloatV (getF (unwrapRaw raw) "longitude")).isNaN) = false := by
        simpa using hc
      have hor := Bool.or_eq_false_iff.mp hc'
      have hly2 := Option.some.inj hf
      rw [hmark] at hly2
      cases hly2
      exact hor
  · intro l1 l2 bad hbad
    have hnone : acceptOne bad = none := by
      simp only [acceptOne]
      split_ifs with hc
      · rfl
      · exfalso
        have hc' : ((parseFloatV (getF (unwrapRaw bad) "latitude")).isNaN
            || (parseFloatV (getF (unwrapRaw bad) "longitude")).isNaN) = false := by
          simpa using hc
        have hor := Bool.or_eq_false_iff.mp hc'
        simp only [mapAccepts] at hbad
        rw [hor.1, hor.2] at hbad
        exact absurd hbad (by simp)
    unfold acceptedMarkers
    rw [List.filterMap_append, List.filterMap_append, List.filterMap_cons, hnone]

/-- Counterexample for C1 as stated: a record with latitude 200 — outside
[-90, 90] — and one with the non-finite latitude Infinity are not excluded;
both are plotted as markers with those parsed latitudes, because the gate
tests only `isNaN`. -/
theorem plotMarkers_outOfRange_cex :
    acceptedMarkers [raw200]
      = [Layer.mark (JNum.fin 200) (JNum.fin 0) (popupContent (unwrapRaw raw200))]
    ∧ (90 : ℚ) < 200
    ∧ acceptedMarkers [rawInf]
        = [Layer.mark JNum.posInf (JNum.fin 0) (popupContent (unwrapRaw rawInf))] := by
  refine ⟨by decide, by decide, by decide⟩

/-- Witness for C1 (amended) on a concrete mixed batch. -/
theorem plotMarkers_filter_sound_witness :
    (acceptedMarkers [rawA, rawB]).length ≤ 2
    ∧ acceptedMarkers ([rawA] ++ rawB :: []) = acceptedMarkers ([rawA] ++ []) :=
  ⟨(plotMarkers_filter_sound [rawA, rawB]).1,
   (plotMarkers_filter_sound [rawA, rawB]).2.2.1 [rawA] [] rawB (by decide)⟩

/-! Claim C2: map markers versus sidebar cards. -/

/-- The marker-placement decision succeeds exactly on map-accepted records. -/
theorem acceptOne_isSome_iff (raw : Raw) :
    (acceptOne raw).isSome = mapAccepts raw := by
  simp only [acceptOne, mapAccepts]
  cases h1 : (parseFloatV (getF (unwrapRaw raw) "latitude")).isNaN
  · cases h2 : (parseFloatV (getF (unwrapRaw raw) "longitude")).isNaN
    · simp [h1, h2]
    · simp [h1, h2]
  · simp [h1]

/-- The processing pipeline emits exactly one result per record. -/
theorem processResults_length (d : DistFn) (ref : Option (JNum × JNum))
    (data : List Raw) : (processResults d ref data).length = data.length := by
  unfold processResults sortStep
  split_ifs with h
  · rw [reindexFrom_length]
    unfold jsSortByDistance
    rw [List.length_insertionSort, processFrom_length]
  · rw [processFrom_length]

/-- The accepted-marker list exhausts the batch exactly when every record
is map-accepted. -/
theorem acceptedMarkers_length_iff : ∀ (data : List Raw),
    (acceptedMarkers data).length = data.length
      ↔ ∀ raw ∈ data, mapAccepts raw = true := by
  intro data
  induction data with
  | nil => simp [acceptedMarkers]
  | cons raw rest ih =>
    rw [acceptedMarkers_cons]
    cases hro : acceptOne raw with
    | none =>
      have hacc : mapAccepts raw = false := by rw [← acceptOne_isSome_iff, hro]; rfl
      constructor
      · intro hlen
        exfalso
        have hle : (acceptedMarkers rest).length ≤ rest.length :=
          List.length_filterMap_le _ _
        simp only [Option.toList, List.nil_append, List.length_cons] at hlen
        omega
      · intro hall
        have := hall raw (List.mem_cons_self raw rest)
        rw [hacc] at this
        exact absurd this (by simp)
    | some ly =>
      have hacc : mapAccepts raw = true := by rw [← acceptOne_isSome_iff, hro]; rfl
      simp only [Option.toList, List.singleton_append, List.length_cons]
      constructor
      · intro hlen raw2 hmem
        rcases List.mem_cons.mp hmem with h | h
        · rw [h]; exact hacc
        · exact ih.mp (Nat.succ_injective hlen) raw2 h
      · intro hall
        rw [ih.mpr (fun r hr => hall r (List.mem_cons_of_mem _ hr))]

/-- Claim C2 (amended): the sidebar renders one card per record of the
batch unconditionally, while the map plots only the coordinate-parseable
records, so the marker set is a subset of the card set; the two coincide
exactly when every record in the batch is map-accepted. -/
theorem sidebar_covers_map_amended (d : DistFn) (data : List Raw) :
    (∀ s : AppState, ((updateSidebarM d data s).sidebarCards).length = data.length)
    ∧ (acceptedMarkers data).length ≤ data.length
    ∧ ((acceptedMarkers data).length = data.length
        ↔ ∀ raw ∈ data, mapAccepts raw = true) :=
  ⟨fun s => processResults_length d s.lastSearchLocation data,
   List.length_filterMap_le _ _,
   acceptedMarkers_length_iff data⟩

/-- Counterexample for C2 as stated: a record with no parseable coordinates
is rendered as a sidebar card but produces no map marker, so the two views
disagree on the same one-record batch. -/
theorem sidebar_map_disagree_cex :
    ((updateSidebarM distZero [rawB] initState).sidebarCards).length = 1
    ∧ acceptedMarkers [rawB] = []
    ∧ markerSnds (plotMarkers [rawB] initState) = [] := by
  refine ⟨rfl, rfl, rfl⟩

/-- Witness for C2 (amended) on a concrete fully-parseable batch. -/
theorem sidebar_covers_map_amended_witness :
    ((updateSidebarM distZero [rawA] initState).sidebarCards).length = 1
    ∧ (acceptedMarkers [rawA]).length = 1 :=
  ⟨(sidebar_covers_map_amended distZero [rawA]).1 initState,
   (sidebar_covers_map_amended distZero [rawA]).2.2.mpr (by decide)⟩

/-! Claim C6: marker clearing across searches and reloads. -/

/-- In a marker-aligned state, `clearMarkers` removes every marker layer
and re-establishes alignment over the emptied `markers` array. -/
theorem clearMarkers_empties (s : AppState) (h : markAligned s) :
    markerSnds (clearMarkers s) = [] ∧ markAligned (clearMarkers s) := by
  have hnil : markerLayers (clearMarkers s) = [] := by
    unfold markerLayers clearMarkers
    rw [List.filter_eq_nil]
    intro p hp
    have hmem := (List.mem_filter.mp hp).1
    have hkeep := (List.mem_filter.mp hp).2
    intro hmark
    have hpm : p ∈ markerLayers s := List.mem_filter.mpr ⟨hmem, hmark⟩
    have hid : p.1 ∈ s.markers := by
      rw [← h]
      exact List.mem_map_of_mem Prod.fst hpm
    have : s.markers.contains p.1 = true := by
      rw [List.contains_eq_any_beq]
      rw [List.any_eq_true]
      exact ⟨p.1, hid, by simp⟩
    rw [this] at hkeep
    exact absurd hkeep (by simp)
  constructor
  · unfold markerSnds
    rw [hnil]
    rfl
  · unfold markAligned
    rw [hnil]
    rfl

/-- One plot iteration preserves marker alignment. -/
theorem markAligned_plotStep (s : AppState) (raw : Raw) (h : markAligned s) :
    markAligned (plotStep s raw) := by
  unfold markAligned at *
  simp only [plotStep]
  split_ifs with hc
  · exact h
  · simp only [markerLayers, MapState.addLayer, List.filter_append]
    rw [List.map_append]
    show _ ++ _ = s.markers ++ [s.mapSt.nextId]
    rw [← h]
    rfl

/-- The plot fold preserves marker alignment. -/
theorem markAligned_plotFold : ∀ (data : List Raw) (s : AppState),
    markAligned s → markAligned (data.foldl plotStep s) := by
  intro data
  induction data with
  | nil => intro s h; exact h
  | cons raw rest ih =>
    intro s h
    exact ih (plotStep s raw) (markAligned_plotStep s raw h)

/-- `plotMarkers` preserves marker alignment. -/
theorem markAligned_plotMarkers (data : List Raw) (s : AppState)
    (h : markAligned s) : markAligned (plotMarkers data s) := by
  unfold plotMarkers
  split_ifs with hc
  · exact h
  · exact markAligned_plotFold data s h

/-- Claim C6 (amended): the marker step of a radius search — `clearMarkers`
followed by `plotMarkers` — leaves the map with exactly the markers of the
new result set (no stale marker survives) and keeps the marker bookkeeping
aligned; a full-data reload (`loadAllPins`), by contrast, issues no clear
and appends its markers to those already present. -/
theorem search_clears_markers_amended (s s2 : AppState) (data data2 : List Raw)
    (h : markAligned s) :
    markerSnds (plotMarkers data (clearMarkers s)) = acceptedMarkers data
    ∧ markAligned (plotMarkers data (clearMarkers s))
    ∧ markerSnds ((loadAllPins (Except.ok data2) s2).1)
        = markerSnds s2 ++ acceptedMarkers data2 := by
  obtain ⟨h1, h2⟩ := clearMarkers_empties s h
  refine ⟨?_, markAligned_plotMarkers data _ h2, ?_⟩
  · rw [markerSnds_plotMarkers, h1, List.nil_append]
  · show markerSnds (showLoadingM false (plotMarkers data2 (showLoadingM true s2))) = _
    rw [show markerSnds (showLoadingM false (plotMarkers data2 (showLoadingM true s2)))
        = markerSnds (plotMarkers data2 (showLoadingM true s2)) from rfl]
    rw [markerSnds_plotMarkers]
    rfl

/-- Counterexample for C6 as stated: starting from a map with one marker, a
full-data reload of a one-record batch leaves two markers — the stale
marker from before the reload persists because `loadAllPins` never calls
`clearMarkers`. -/
theorem loadAllPins_stale_marker_cex :
    (markerSnds (plotMarkers [rawA] initState)).length = 1
    ∧ (markerSnds ((loadAllPins (Except.ok [rawA])
        (plotMarkers [rawA] initState)).1)).length = 2 :=
  ⟨rfl, rfl⟩

/-- Witness for C6 (amended) from the freshly initialised state. -/
theorem search_clears_markers_amended_witness :
    markerSnds (plotMarkers [rawA] (clearMarkers initState)) = acceptedMarkers [rawA]
    ∧ markerSnds ((loadAllPins (Except.ok [rawA]) initState).1)
        = markerSnds initState ++ acceptedMarkers [rawA] :=
  ⟨(search_clears_markers_amended initState initState [rawA] [rawA] rfl).1,
   (search_clears_markers_amended initState initState [rawA] [rawA] rfl).2.2⟩

/-! Characterisation of the `handleSearch` control-flow branches. -/

/-- An empty trimmed address aborts with the validation notice. -/
theorem handleSearch_invalidAddr (d : DistFn) (addrRaw radRaw : String)
    (geo : Except Unit (List GeoRec)) (qry : Except Unit (List Raw))
    (s : AppState) (h : trimStr addrRaw = "") :
    handleSearch d addrRaw radRaw geo qry s
      = (s, [Eff.uiError "Please enter an address"]) := by
  unfold handleSearch
  rw [if_pos h]

/-- A falsy or non-positive radius aborts with the validation notice. -/
theorem handleSearch_invalidRadius (d : DistFn) (addrRaw radRaw : String)
    (geo : Except Unit (List GeoRec)) (qry : Except Unit (List Raw))
    (s : AppState) (haddr : trimStr addrRaw ≠ "")
    (h : (!jnumTruthy (parseFloatStr radRaw)
          || jnumLeZero (parseFloatStr radRaw)) = true) :
    handleSearch d addrRaw radRaw geo qry s
      = (s, [Eff.uiError "Please enter a valid radius (greater than 0)"]) := by
  unfold handleSearch
  rw [if_neg haddr, if_pos h]

/-- With valid inputs, an attempt made while loading is silently dropped. -/
theorem handleSearch_loading (d : DistFn) (addrRaw radRaw : String)
    (geo : Except Unit (List GeoRec)) (qry : Except Unit (List Raw))
    (s : AppState) (haddr : trimStr addrRaw ≠ "")
    (hrad : (!jnumTruthy (parseFloatStr radRaw)
             || jnumLeZero (parseFloatStr radRaw)) = false)
    (h : s.isLoading = true) :
    handleSearch d addrRaw radRaw geo qry s = (s, []) := by
  unfold handleSearch
  rw [if_neg haddr, if_neg (by rw [hrad]; exact Bool.false_ne_true), if_pos h]

/-- A geocoding miss (or caught geocoding failure) aborts with the
address-not-found notice, before any query request. -/
theorem handleSearch_geoNone (d : DistFn) (addrRaw radRaw : String)
    (geo : Except Unit (List GeoRec)) (qry : Except Unit (List Raw))
    (s : AppState) (haddr : trimStr addrRaw ≠ "")
    (hrad : (!jnumTruthy (parseFloatStr radRaw)
             || jnumLeZero (parseFloatStr radRaw)) = false)
    (hload : s.isLoading = false) (hgeo : geocodeAddress geo = none) :
    handleSearch d addrRaw radRaw geo qry s
      = (showLoadingM false (showLoadingM true s),
         [Eff.netGeocode (trimStr addrRaw),
          Eff.uiError "Could not find the specified address. Please try a different address."]) := by
  unfold handleSearch
  rw [if_neg haddr, if_neg (by rw [hrad]; exact Bool.false_ne_true),
    if_neg (by rw [hload]; exact Bool.false_ne_true), hgeo]

/-- A query-transport failure surfaces the generic search-failure notice. -/
theorem handleSearch_qryErr (d : DistFn) (addrRaw radRaw : String)
    (geo : Except Unit (List GeoRec)) (s : AppState) (g : GeoResult)
    (haddr : trimStr addrRaw ≠ "")
    (hrad : (!jnumTruthy (parseFloatStr radRaw)
             || jnumLeZero (parseFloatStr radRaw)) = false)
    (hload : s.isLoading = false) (hgeo : geocodeAddress geo = some g) :
    handleSearch d addrRaw radRaw geo (Except.error ()) s
      = (showLoadingM false
           { showLoadingM true s with lastSearchLocation := some (g.lat, g.lon) },
         [Eff.netGeocode (trimStr addrRaw),
          Eff.netQuery g.lat g.lon (jmul (parseFloatStr radRaw) 1.60934),
          Eff.uiError "Search failed. Please try again."]) := by
  unfold handleSearch
  rw [if_neg haddr, if_neg (by rw [hrad]; exact Bool.false_ne_true),
    if_neg (by rw [hload]; exact Bool.false_ne_true), hgeo]

/-- The successful search path: geocode, query, clear-and-replot, sidebar
rebuild, circle and highlight redraw, loading cleared. -/
theorem handleSearch_ok (d : DistFn) (addrRaw radRaw : String)
    (geo : Except Unit (List GeoRec)) (s : AppState) (g : GeoResult)
    (data : List Raw) (haddr : trimStr addrRaw ≠ "")
    (hrad : (!jnumTruthy (parseFloatStr radRaw)
             || jnumLeZero (parseFloatStr radRaw)) = false)
    (hload : s.isLoading = false) (hgeo : geocodeAddress geo = some g) :
    handleSearch d addrRaw radRaw geo (Except.ok data) s
      = (showLoadingM false
           (highlightSearchLocation g.lat g.lon
             (drawSearchCircle g.lat g.lon (parseFloatStr radRaw)
               (updateSidebarM d data
                 (plotMarkers data
                   (clearMarkers
                     { showLoadingM true s with
                       lastSearchLocation := some (g.lat, g.lon) }))))),
         [Eff.netGeocode (trimStr addrRaw),
          Eff.netQuery g.lat g.lon (jmul (parseFloatStr radRaw) 1.60934)]
           ++ (if data.isEmpty
               then [Eff.uiError "No locations found within that radius."]
               else [])) := by
  unfold handleSearch
  rw [if_neg haddr, if_neg (by rw [hrad]; exact Bool.false_ne_true),
    if_neg (by rw [hload]; exact Bool.false_ne_true), hgeo]

/-! Claim C5: unit conversions and single-circle maintenance. -/

/-- Removing the tracked circle identifier removes every circle layer. -/
theorem circleLayers_after_remove (st : AppState) (i : Nat)
    (h : (circleLayers st).map Prod.fst = [i]) :
    circleLayers { st with mapSt := st.mapSt.removeLayer i } = [] := by
  unfold circleLayers MapState.removeLayer
  rw [List.filter_eq_nil_iff]
  intro p hp
  have hmem := (List.mem_filter.mp hp).1
  have hne : p.1 ≠ i := of_decide_eq_true (List.mem_filter.mp hp).2
  intro hcirc
  have hpc : p ∈ circleLayers st := List.mem_filter.mpr ⟨hmem, hcirc⟩
  have : p.1 ∈ [i] := by
    rw [← h]
    exact List.mem_map_of_mem Prod.fst hpc
  exact hne (List.mem_singleton.mp this)

/-- In a circle-aligned state, `drawSearchCircle` first removes the prior
circle and then draws exactly one circle of `radius × 1609.34` metres,
re-establishing alignment; an aligned state never shows more than one
circle. -/
theorem drawSearchCircle_single (la lo rr : JNum) (st : AppState)
    (h : circleAligned st) :
    circleSnds (drawSearchCircle la lo rr st) = [Layer.circ la lo (jmul rr 1609.34)]
    ∧ circleAligned (drawSearchCircle la lo rr st)
    ∧ (circleSnds st).length ≤ 1 := by
  have hlen : (circleSnds st).length ≤ 1 := by
    unfold circleSnds
    have h2 : ((circleLayers st).map Prod.fst).length = st.searchCircle.toList.length := by
      rw [h]
    rw [List.length_map] at h2
    rw [List.length_map, h2]
    cases st.searchCircle
    · exact Nat.zero_le 1
    · exact Nat.le_refl 1
  have hmain : ∀ s1 : AppState, circleLayers s1 = [] →
      circleSnds { s1 with
          mapSt := (s1.mapSt.addLayer (Layer.circ la lo (jmul rr 1609.34))).1,
          searchCircle := some (s1.mapSt.addLayer (Layer.circ la lo (jmul rr 1609.34))).2 }
        = [Layer.circ la lo (jmul rr 1609.34)]
      ∧ circleAligned { s1 with
          mapSt := (s1.mapSt.addLayer (Layer.circ la lo (jmul rr 1609.34))).1,
          searchCircle := some (s1.mapSt.addLayer (Layer.circ la lo (jmul rr 1609.34))).2 } := by
    intro s1 hnil
    constructor
    · unfold circleSnds circleLayers MapState.addLayer at *
      simp only [List.filter_append]
      rw [hnil]
      rfl
    · unfold circleAligned circleLayers MapState.addLayer at *
      simp only [List.filter_append]
      rw [hnil]
      rfl
  cases hsc : st.searchCircle with
  | none =>
    have hnil : circleLayers st = [] := by
      unfold circleAligned at h
      rw [hsc] at h
      exact List.map_eq_nil.mp h
    have := hmain st hnil
    refine ⟨?_, ?_, hlen⟩
    · show circleSnds _ = _
      simpa [drawSearchCircle, hsc] using this.1
    · show circleAligned _
      simpa [drawSearchCircle, hsc] using this.2
  | some i =>
    have hone : (circleLayers st).map Prod.fst = [i] := by
      unfold circleAligned at h
      rw [hsc] at h
      exact h
    have hnil := circleLayers_after_remove st i hone
    have := hmain _ hnil
    refine ⟨?_, ?_, hlen⟩
    · show circleSnds _ = _
      simpa [drawSearchCircle, hsc] using this.1
    · show circleAligned _
      simpa [drawSearchCircle, hsc] using this.2

/-- Claim C5: for a positive radius r entered in miles, the query request
carries exactly r × 1.60934 kilometres (for r = 10 the model evaluates this
to 16.0934, and the circle radius to 16093.4 metres); the circle drawn by
`drawSearchCircle` has radius exactly r × 1609.34 metres, at most one
circle exists in an aligned state, and the prior circle is removed before
the new one is drawn (the state after drawing holds exactly the one new
circle). -/
theorem search_radius_conversion (d : DistFn) (addrRaw radRaw : String)
    (geo : Except Unit (List GeoRec)) (s : AppState) (q : ℚ) (g : GeoResult)
    (data : List Raw) (haddr : trimStr addrRaw ≠ "")
    (hq : parseFloatStr radRaw = JNum.fin q) (hpos : 0 < q)
    (hload : s.isLoading = false) (hgeo : geocodeAddress geo = some g) :
    Eff.netQuery g.lat g.lon (JNum.fin (q * 1.60934))
        ∈ (handleSearch d addrRaw radRaw geo (Except.ok data) s).2
    ∧ (∀ (la lo rr : JNum) (st : AppState), circleAligned st →
        circleSnds (drawSearchCircle la lo rr st)
            = [Layer.circ la lo (jmul rr 1609.34)]
        ∧ circleAligned (drawSearchCircle la lo rr st)
        ∧ (circleSnds st).length ≤ 1)
    ∧ jmul (JNum.fin 10) 1.60934 = JNum.fin 16.0934
    ∧ jmul (JNum.fin 10) 1609.34 = JNum.fin 16093.4 := by
  have hrad : (!jnumTruthy (parseFloatStr radRaw)
      || jnumLeZero (parseFloatStr radRaw)) = false := by
    rw [hq]
    show (!decide (q ≠ 0) || decide (q ≤ 0)) = false
    rw [decide_eq_true (ne_of_gt hpos), decide_eq_false (not_le.mpr hpos)]
    rfl
  refine ⟨?_, fun la lo rr st hst => drawSearchCircle_single la lo rr st hst, ?_, ?_⟩
  · rw [handleSearch_ok d addrRaw radRaw geo s g data haddr hrad hload hgeo]
    have : jmul (parseFloatStr radRaw) 1.60934 = JNum.fin (q * 1.60934) := by
      rw [hq]
      rfl
    rw [this]
    simp
  · show JNum.fin ((10 : ℚ) * 1.60934) = JNum.fin 16.0934
    norm_num
  · show JNum.fin ((10 : ℚ) * 1609.34) = JNum.fin 16093.4
    norm_num

/-- Witness for C5 with radius 10 miles and a successful Birmingham
geocode. -/
theorem search_radius_conversion_witness :
    Eff.netQuery (parseFloatV (JSVal.str "33.5207"))
        (parseFloatV (JSVal.str "-86.8025")) (JNum.fin ((10 : ℚ) * 1.60934))
      ∈ (handleSearch distZero "Birmingham, AL" "10"
          (Except.ok [⟨.str "33.5207", .str "-86.8025", .str "Birmingham"⟩])
          (Except.ok [rawA]) initState).2
    ∧ jmul (JNum.fin 10) 1.60934 = JNum.fin 16.0934 :=
  ⟨(search_radius_conversion distZero "Birmingham, AL" "10"
      (Except.ok [⟨.str "33.5207", .str "-86.8025", .str "Birmingham"⟩])
      initState 10
      { lat := parseFloatV (JSVal.str "33.5207"),
        lon := parseFloatV (JSVal.str "-86.8025"),
        display_name := .str "Birmingham" }
      [rawA] (by decide) (by decide) (by decide) rfl rfl).1,
   (search_radius_conversion distZero "Birmingham, AL" "10"
      (Except.ok [⟨.str "33.5207", .str "-86.8025", .str "Birmingham"⟩])
      initState 10
      { lat := parseFloatV (JSVal.str "33.5207"),
        lon := parseFloatV (JSVal.str "-86.8025"),
        display_name := .str "Birmingham" }
      [rawA] (by decide) (by decide) (by decide) rfl rfl).2.2.1⟩

/-! Claim C9: the single-flight loading guard. -/

/-- Claim C9 (amended): while the loading flag is set, a search attempt
with valid inputs is silently dropped — no network request, no notice, no
state change, and nothing queued; an attempt with an invalid address or
radius shows only the corresponding validation notice and changes no state
(this runs before the loading guard, so it is observable even while
loading); and a search that passes validation while idle always finishes
with the loading flag cleared and the search and update-map controls
re-enabled, on success and failure alike. -/
theorem search_single_flight_amended (d : DistFn) (a r : String)
    (geo : Except Unit (List GeoRec)) (qry : Except Unit (List Raw))
    (s : AppState) :
    (s.isLoading = true → trimStr a ≠ "" →
      (!jnumTruthy (parseFloatStr r) || jnumLeZero (parseFloatStr r)) = false →
      handleSearch d a r geo qry s = (s, []))
    ∧ (trimStr a = "" →
      handleSearch d a r geo qry s = (s, [Eff.uiError "Please enter an address"]))
    ∧ (trimStr a ≠ "" →
      (!jnumTruthy (parseFloatStr r) || jnumLeZero (parseFloatStr r)) = true →
      handleSearch d a r geo qry s
        = (s, [Eff.uiError "Please enter a valid radius (greater than 0)"]))
    ∧ (s.isLoading = false → trimStr a ≠ "" →
      (!jnumTruthy (parseFloatStr r) || jnumLeZero (parseFloatStr r)) = false →
      ((handleSearch d a r geo qry s).1.isLoading = false
       ∧ (handleSearch d a r geo qry s).1.searchBtnDisabled = false
       ∧ (handleSearch d a r geo qry s).1.updateMapBtnDisabled = false)) := by
  refine ⟨?_, ?_, ?_, ?_⟩
  · intro hload haddr hrad
    exact handleSearch_loading d a r geo qry s haddr hrad hload
  · intro haddr
    exact handleSearch_invalidAddr d a r geo qry s haddr
  · intro haddr hrad
    exact handleSearch_invalidRadius d a r geo qry s haddr hrad
  · intro hload haddr hrad
    cases hgeo : geocodeAddress geo with
    | none =>
      rw [handleSearch_geoNone d a r geo qry s haddr hrad hload hgeo]
      exact ⟨rfl, rfl, rfl⟩
    | some g =>
      cases qry with
      | error e =>
        cases e
        rw [handleSearch_qryErr d a r geo s g haddr hrad hload hgeo]
        exact ⟨rfl, rfl, rfl⟩
      | ok data =>
        rw [handleSearch_ok d a r geo s g data haddr hrad hload hgeo]
        exact ⟨rfl, rfl, rfl⟩

/-- Counterexample for C9 as stated: while the loading flag is set, a
search attempt with an empty address is not a no-op — it displays the
address-validation notice, an observable UI change not produced by the
in-flight operation, because validation runs before the loading guard. -/
theorem search_guard_ui_effect_cex :
    sLoading.isLoading = true
    ∧ handleSearch distZero "" "5" (Except.ok []) (Except.ok []) sLoading
        = (sLoading, [Eff.uiError "Please enter an address"]) :=
  ⟨rfl, rfl⟩

/-- Witness for C9 (amended): a valid attempt while loading is dropped. -/
theorem search_single_flight_amended_witness :
    sLoading.isLoading = true
    ∧ handleSearch distZero "Birmingham, AL" "10" (Except.ok [])
        (Except.ok []) sLoading = (sLoading, []) :=
  ⟨rfl,
   (search_single_flight_amended distZero "Birmingham, AL" "10" (Except.ok [])
      (Except.ok []) sLoading).1 rfl (by decide) (by decide)⟩

/-! Claim C7: popup rendering of missing fields. -/

/-- A character list begins every list it is a prefix of. -/
theorem beginsWith_same : ∀ (n z : List Char), beginsWith n (n ++ z) = true := by
  intro n
  induction n with
  | nil => intro z; rfl
  | cons c cs ih =>
    intro z
    show (c == c && beginsWith cs (cs ++ z)) = true
    rw [ih z]
    simp

/-- Occurrence in a suffix is occurrence in the whole. -/
theorem containsSub_append_right (n : List Char) :
    ∀ (x y : List Char), containsSub n y = true → containsSub n (x ++ y) = true := by
  intro x
  induction x with
  | nil => intro y h; exact h
  | cons c cs ih =>
    intro y h
    show (beginsWith n (c :: (cs ++ y)) || containsSub n (cs ++ y)) = true
    rw [ih y h]
    exact Bool.or_true _

/-- A list occurs at the head of itself followed by anything. -/
theorem containsSub_here : ∀ (n z : List Char), containsSub n (n ++ z) = true := by
  intro n z
  cases n with
  | nil =>
    cases z with
    | nil => rfl
    | cons c cs =>
      show (beginsWith [] (c :: cs) || containsSub [] cs) = true
      rfl
  | cons c cs =>
    show (beginsWith (c :: cs) ((c :: cs) ++ z) || _) = true
    rw [beginsWith_same]
    rfl

/-- String concatenation concatenates the character lists. -/
theorem strToList_append (a b : String) : (a ++ b).toList = a.toList ++ b.toList :=
  rfl

/-- If the email chunk renders as the word `undefined`, the popup text
contains that word. -/
theorem popup_email_undefined (r : Rec) (hem : popupEmail r = "undefined") :
    hasUndefinedWord (popupContent r) = true := by
  unfold hasUndefinedWord popupContent
  rw [hem]
  simp only [strToList_append, List.append_assoc]
  repeat
    first
      | exact containsSub_here _ _
      | apply containsSub_append_right

/-- Claim C7 (amended): in the popup built for a plotted record, every
missing optional field renders as the empty string (or the default
`Unnamed` for the name) — except the email: a record with neither email
alias renders the literal word `undefined` in the popup text, because that
one interpolation lacks the final empty-string fallback. -/
theorem popup_missing_fields_amended (r : Rec) :
    (getF r "name" = JSVal.undef → getF r "Name" = JSVal.undef → popupName r = "Unnamed")
    ∧ (getF r "business_name" = JSVal.undef → getF r "Business Name" = JSVal.undef →
        popupBusiness r = "")
    ∧ (getF r "type" = JSVal.undef → getF r "Type" = JSVal.undef → popupType r = "")
    ∧ (getF r "address" = JSVal.undef → getF r "Address" = JSVal.undef → popupAddress r = "")
    ∧ (getF r "contact" = JSVal.undef → getF r "Contact" = JSVal.undef → popupContact r = "")
    ∧ (getF r "rates" = JSVal.undef → getF r "Rates" = JSVal.undef → popupRates r = "")
    ∧ (getF r "email" = JSVal.undef → getF r "Email" = JSVal.undef →
        popupEmail r = "undefined" ∧ hasUndefinedWord (popupContent r) = true) := by
  refine ⟨?_, ?_, ?_, ?_, ?_, ?_, ?_⟩
  · intro h1 h2; simp [popupName, jsOr, truthy, jsToStr, h1, h2]
  · intro h1 h2; simp [popupBusiness, jsOr, truthy, jsToStr, h1, h2]
  · intro h1 h2; simp [popupType, jsOr, truthy, jsToStr, h1, h2]
  · intro h1 h2; simp [popupAddress, jsOr, truthy, jsToStr, h1, h2]
  · intro h1 h2; simp [popupContact, jsOr, truthy, jsToStr, h1, h2]
  · intro h1 h2; simp [popupRates, jsOr, truthy, jsToStr, h1, h2]
  · intro h1 h2
    have hem : popupEmail r = "undefined" := by
      simp [popupEmail, jsOr, truthy, jsToStr, h1, h2]
    exact ⟨hem, popup_email_undefined r hem⟩

/-- Counterexample for C7 as stated: a plotted record with no email alias
renders the literal word `undefined` in its popup text. -/
theorem popup_undefined_email_cex :
    (acceptOne rawA).isSome = true
    ∧ popupEmail (unwrapRaw rawA) = "undefined"
    ∧ hasUndefinedWord (popupContent (unwrapRaw rawA)) = true := by
  refine ⟨rfl, by decide, by decide⟩

/-- Witness for C7 (amended) at the all-fields-missing record. -/
theorem popup_missing_fields_amended_witness :
    popupName recNone = "Unnamed"
    ∧ popupEmail recNone = "undefined"
    ∧ hasUndefinedWord (popupContent recNone) = true :=
  ⟨(popup_missing_fields_amended recNone).1 rfl rfl,
   ((popup_missing_fields_amended recNone).2.2.2.2.2.2 rfl rfl).1,
   ((popup_missing_fields_amended recNone).2.2.2.2.2.2 rfl rfl).2⟩

end MapRag
